import Mathlib

/-!
Verification of the spotter-sd-parser concatenation / version-reconciliation
pipeline (`concat.py`, `versions.py`, `filenames.py`).

The Python sources are shallowly embedded below.  String-processing
primitives of Python (`str.split`, `str.strip`, `str.find`, slicing,
`int(...)`, `float(...)`) are modelled by structurally recursive functions
over `List Char`, so that every definition evaluates by kernel reduction.
Python `float` values appearing in these files are exact decimal literals;
they are modelled exactly (numerator / power-of-ten), which coincides with
IEEE comparison for every literal occurring in the claims.  Fallible Python
code (statements that can raise) is modelled with `Except String`.
-/

namespace Spotter

/-- Characters Python's `str.strip()` removes (ASCII whitespace suffices for
the inputs of this code base). -/
def pyWs (c : Char) : Bool := c = ' ' ∨ c = '\t' ∨ c = '\n' ∨ c = '\r' ∨ c = '\x0b' ∨ c = '\x0c'

/-- Python `str.strip()`. -/
def pyTrim (s : String) : String :=
  String.mk (((s.data.dropWhile pyWs).reverse.dropWhile pyWs).reverse)

/-- `str.split(sep)` for a one-character separator, on char lists:
no collapsing of empty fields, `""` splits to `[""]`. -/
def splitOnChar (c : Char) : List Char → List (List Char)
  | [] => [[]]
  | x :: xs =>
    if x = c then [] :: splitOnChar c xs
    else
      match splitOnChar c xs with
      | [] => [[x]]
      | y :: ys => (x :: y) :: ys

/-- Python `s.split(c)` for a one-character separator. -/
def pySplit (s : String) (c : Char) : List String :=
  (splitOnChar c s.data).map String.mk

/-- Decimal digit run to a natural number; `none` if empty or non-digit. -/
def digitsToNat? : List Char → Option Nat
  | [] => none
  | cs =>
    if cs.all Char.isDigit then
      some (cs.foldl (fun n c => n * 10 + (c.toNat - '0'.toNat)) 0)
    else none

/-- Python `int(s)`: surrounding whitespace allowed, optional sign,
then a non-empty digit run.  `none` models the `ValueError`. -/
def pyInt? (s : String) : Option Int :=
  let t := (pyTrim s).data
  match t with
  | '-' :: rest => (digitsToNat? rest).map (fun n => -(n : Int))
  | '+' :: rest => (digitsToNat? rest).map (fun n => (n : Int))
  | rest => (digitsToNat? rest).map (fun n => (n : Int))

/-- An exact decimal value `num / 10 ^ exp`, modelling the Python floats
produced by `float(...)` on the decimal literals in these files. -/
structure PyFloat where
  num : Int
  exp : Nat
  deriving DecidableEq, Repr

/-- Comparison of exact decimals (cross multiplication). -/
def pyfLe (a b : PyFloat) : Bool := a.num * (10 : Int) ^ b.exp ≤ b.num * (10 : Int) ^ a.exp

/-- Python `float(s)` on decimal literals: optional sign, digits with an
optional fractional part (`"5"`, `"5."`, `".5"`, `"2.0"`).  Exotic forms
(exponents, `inf`, `nan`, underscores) are not produced by these files and
yield `none`. -/
def pyFloat? (s : String) : Option PyFloat :=
  let t := (pyTrim s).data
  let (sgn, t) :=
    match t with
    | '-' :: rest => ((-1 : Int), rest)
    | '+' :: rest => ((1 : Int), rest)
    | rest => ((1 : Int), rest)
  match splitOnChar '.' t with
  | [a] => (digitsToNat? a).map (fun n => ⟨sgn * n, 0⟩)
  | [a, b] =>
    if a.isEmpty ∧ b.isEmpty then none
    else if (a.all Char.isDigit) ∧ (b.all Char.isDigit) then
      let av := a.foldl (fun n c => n * 10 + (c.toNat - '0'.toNat)) 0
      let bv := b.foldl (fun n c => n * 10 + (c.toNat - '0'.toNat)) 0
      some ⟨sgn * ((av * 10 ^ b.length + bv : Nat) : Int), b.length⟩
    else none
  | _ => none

/-- `floatable` from `concat.py`: can `v` be converted to a float? -/
def floatable (v : String) : Bool := (pyFloat? v).isSome

/-- First index at which `needle` occurs as a prefix of a suffix of the
haystack (char-list core of Python `str.find`). -/
def pyFindAux (needle : List Char) : List Char → Nat → Option Nat
  | [], i => if needle.isEmpty then some i else none
  | x :: xs, i =>
    if needle.isPrefixOf (x :: xs) then some i else pyFindAux needle xs (i + 1)

/-- Python `haystack.find(needle, start)` (with a non-negative start). -/
def pyFind (haystack needle : String) (start : Nat) : Int :=
  match pyFindAux needle.data (haystack.data.drop start) 0 with
  | some k => ((start + k : Nat) : Int)
  | none => -1

/-- Loop body of `find_nth` from `concat.py`. -/
def findNthGo (haystack needle : String) : Nat → Int → Int → Int × Int
  | 0, start, prev => (start, prev)
  | 1, start, prev => (start, prev)
  | n + 2, start, prev =>
    if 0 ≤ start then
      findNthGo haystack needle (n + 1)
        (pyFind haystack needle (start.toNat + needle.length)) start
    else (start, prev)

/-- `find_nth` from `concat.py`: positions of the nth and (n−1)th
occurrences of `needle` in `haystack` (−1 when absent). -/
def find_nth (haystack needle : String) (n : Nat) : Int × Int :=
  let start := pyFind haystack needle 0
  findNthGo haystack needle n start start

/-- Python slicing `s[i:j]` with int indices (negative indices count from
the end, bounds are clamped). -/
def pySlice (s : String) (i j : Int) : String :=
  let n : Int := s.data.length
  let norm : Int → Nat := fun k => (if k < 0 then max 0 (k + n) else min k n).toNat
  String.mk ((s.data.drop (norm i)).take (norm j - norm i))

/-- Python `sub in s` (substring containment). -/
def containsStr (s sub : String) : Bool :=
  s.data.tails.any (fun t => sub.data.isPrefixOf t)

/-- Python `s[0:k]` for a non-negative literal `k`. -/
def strTake (s : String) (k : Nat) : String := String.mk (s.data.take k)

/-- `line.replace("\r", "")`. -/
def stripCR (s : String) : String := String.mk (s.data.filter (fun c => c ≠ '\r'))

/-- `str.lower()` (ASCII). -/
def strLower (s : String) : String := String.mk (s.data.map Char.toLower)

/-- Stable insertion into a list sorted by `le` (insert after equals). -/
def insertStable (le : α → α → Bool) (x : α) : List α → List α
  | [] => [x]
  | y :: ys => if le y x then y :: insertStable le x ys else x :: y :: ys

/-- Stable sort by `le` (models Python's stable `sorted`): elements are
inserted left to right, each after all existing elements that are `le` it. -/
def stableSortBy (le : α → α → Bool) (l : List α) : List α :=
  l.foldl (fun acc x => insertStable le x acc) []

/-! ## `concat.py` — spectral (SPC) branch of `cat` -/

/-- `modeDetection` from `concat.py`: scan the first lines of an SPC file
for debug markers; a line starting with `FFT` or `SPEC,` means debug mode,
otherwise production after 11 scanned lines or end of file. -/
def modeDetectionGo : List String → Nat → String
  | [], _ => "production"
  | line :: rest, jline =>
    if strTake line 3 = "FFT" ∨ strTake line 5 = "SPEC," then "debug"
    else if jline + 1 > 10 then "production"
    else modeDetectionGo rest (jline + 1)

/-- `modeDetection` over the file's lines. -/
def modeDetection (lines : List String) : String := modeDetectionGo lines 0

/-- State of the spectral-ensemble reducer: tracked counter `ip`, buffered
line `prevLine`, lines written so far. -/
structure SpcState where
  ip : Int
  prevLine : String
  out : List String
  deriving DecidableEq, Repr

/-- The ensemble counter as `cat` reads it (`concat.py` lines 74-75):
`a, b = find_nth(line, ",", 5); ii = int(line[b + 1 : a])`. -/
def spcEnsembleCounter (line : String) : Option Int :=
  let ab := find_nth line "," 5
  pyInt? (pySlice line (ab.2 + 1) ab.1)

/-- One iteration of the SPC line loop of `cat` (`concat.py` lines 67-91).
A `ValueError` from `int(...)` is modelled as `Except.error`. -/
def spcStep (mode : String) (st : SpcState) (line : String) : Except String SpcState :=
  if strTake line 8 = "SPEC_AVG" ∨ strTake line 5 = "SPECA" ∨ strTake line 8 = "SPECA_CC" then
    match spcEnsembleCounter line with
    | none => .error "invalid literal for int()"
    | some ii =>
      if mode = "production" then .ok ⟨ii, st.prevLine, st.out ++ [line]⟩
      else if strTake line 8 = "SPECA_CC" then .ok ⟨0, st.prevLine, st.out ++ [line]⟩
      else if ii < st.ip then .ok ⟨0, st.prevLine, st.out ++ [st.prevLine]⟩
      else .ok ⟨ii, line, st.out⟩
  else .ok st

/-- Fold of `spcStep`; on an exception the lines already written persist and
the file is logged corrupt (`true` flag). -/
def spcFold (mode : String) (st : SpcState) : List String → List String × Bool
  | [] => (st.out, false)
  | line :: rest =>
    match spcStep mode st line with
    | .ok st' => spcFold mode st' rest
    | .error _ => (st.out, true)

/-- Per-file SPC processing of `cat`: detect the mode on the whole file,
write the first line iff this is the job's first file (`index == 0`), then
run the reducer over the remaining lines with `ip = 0`, `prevLine = ""`.
Returns the written lines and whether the file was logged corrupt. -/
def catSpcFile (index : Nat) (fileLines : List String) : List String × Bool :=
  let mode := modeDetection fileLines
  let header := fileLines.headD ""
  let rest := fileLines.tail
  spcFold mode ⟨0, "", if index = 0 then [header] else []⟩ rest

/-! ## `concat.py` — SST millis-to-epoch mapping -/

/-- `np.argmax`: index of the first maximum (0 on the empty list, where
numpy would raise — never reached by the claims). -/
def np_argmax (l : List Int) : Nat :=
  (l.foldl
    (fun (acc : Nat × Nat × Option Int) v =>
      let (best, idx, bestVal) := acc
      match bestVal with
      | none => (idx, idx + 1, some v)
      | some bv => if v > bv then (idx, idx + 1, some v) else (best, idx + 1, bestVal))
    (0, 0, none)).1

/-- `get_epoch_to_milis_relation` from `concat.py`, over the companion FLT
table after pandas numeric coercion and removal of non-finite rows
(first component: millis, second: epochs).  The linear fit is modelled with
exact integer arithmetic; the `Roll-over in millis` exception is the
`Except.error`. -/
def get_epoch_to_milis_relation (table : List (Int × Int)) : Except String (Int → Int) :=
  let millis := table.map Prod.fst
  let epochs := table.map Prod.snd
  let ii := np_argmax millis
  if ii < 10 then .error "Roll-over in millis"
  else
    .ok fun milis_in =>
      epochs.headD 0 +
        (milis_in - millis.headD 0) * (epochs.getD ii 0 - epochs.headD 0) /
          (millis.getD ii 0 - millis.headD 0)

/-- The millis accumulation step of `process_sst_lines`: delta from the
previous accumulated value, wrap correction by `2^32 − 1 = 4294967295` when
the delta is more negative than `−4294000000`. -/
def sst_step (previousvalue cur : Int) : Int :=
  let delta := cur - previousvalue
  let delta := if delta < -4294000000 then delta + 4294967295 else delta
  previousvalue + delta

/-- Trace of the corrected accumulated values produced by `sst_step`. -/
def sst_values (prev : Int) : List Int → List Int
  | [] => []
  | m :: ms => sst_step prev m :: sst_values (sst_step prev m) ms

/-- Line loop of `process_sst_lines` (given the fitted map `m2e`). -/
def sstLines (m2e : Int → Int) (previousvalue : Int) : List String → Except String (List String)
  | [] => .ok []
  | line :: rest =>
    if containsStr line "millis" then
      (sstLines m2e previousvalue rest).map (fun out => line :: out)
    else
      let data := pySplit (pyTrim line) ','
      if data.length = 2 then
        match pyInt? (data.headD "") with
        | none => .error "invalid literal for int()"
        | some cur =>
          let value := sst_step previousvalue cur
          let epoch := m2e value
          (sstLines m2e value rest).map
            (fun out => (toString epoch ++ " , " ++ data.getD 1 "") :: out)
      else sstLines m2e previousvalue rest

/-- `process_sst_lines` from `concat.py`: fit the millis→epoch relation from
the companion FLT table, then rewrite each well-formed two-field line to
`"<epoch> , <second field>"`; malformed lines are dropped and a trailing
newline is appended to every output line. -/
def process_sst_lines (table : List (Int × Int)) (lines : List String) : Except String (List String) := do
  let m2e ← get_epoch_to_milis_relation table
  let outlines ← sstLines m2e 0 lines
  return outlines.map (fun line => line ++ "\n")

/-! ## `concat.py` — smart-mooring (SMD) processing -/

/-- `quote_bsys` from `process_SMD_lines`: for BSYS lines with more than 6
items, re-join everything from item 5 on into one double-quoted item. -/
def quote_bsys (items : List String) : List String :=
  if items.length > 6 ∧ items.getD 2 "" = "BSYS" then
    items.take 5 ++ [String.mk ('"' :: (String.intercalate "," (items.drop 5)).data ++ ['"'])]
  else items

/-- `toomany_rbr_items`: an RBRDT line with more than 7 items is corrupt. -/
def toomany_rbr_items (items : List String) : Bool :=
  items.length > 3 ∧ items.getD 3 "" = "RBRDT" ∧ items.length > 7

/-- `sortval`: numeric value of the first item, `0.0` when unparsable. -/
def sortval (firstitem : String) : PyFloat := (pyFloat? firstitem).getD ⟨0, 0⟩

/-- `process_line` from `process_SMD_lines`: `(−1, "")` marks a discarded
line (unparsable or zero timestamp, fewer than 5 items, corrupt RBRDT);
otherwise the BSYS-requoted line with its sort key. -/
def process_line (line : String) : PyFloat × String :=
  let items := pySplit (pyTrim line) ','
  if ¬ floatable (items.headD "") ∨ items.length < 5 ∨
      (pyFloat? (items.headD "")).any (fun q => q.num = 0) ∨ toomany_rbr_items items then
    (⟨-1, 0⟩, "")
  else
    let items := quote_bsys items
    (sortval (items.headD ""), String.intercalate "," items ++ "\n")

/-- `process_SMD_lines` from `concat.py`: process every line, stably sort
by the numeric key, drop the discarded (negative-key) entries. -/
def process_SMD_lines (lines : List String) : List String :=
  let sorted_results := stableSortBy (fun a b => pyfLe a.1 b.1) (lines.map process_line)
  (sorted_results.filter (fun r => pyfLe ⟨0, 0⟩ r.1)).map Prod.snd

/-! ## `concat.py` — the non-SPC branch of `cat` -/

/-- A source file as `cat` sees it: its name, the result of `readlines()`
(`none` models an exception while reading), and — for SST files — the
companion FLT table consumed by `get_epoch_to_milis_relation`. -/
structure SrcFile where
  name : String
  content : Option (List String)
  fltData : List (Int × Int) := []

/-- `Path.suffix` of a file name (extension with leading dot). -/
def pathSuffix (name : String) : String :=
  match (splitOnChar '.' name.data).reverse with
  | ext :: _ :: _ => String.mk ('.' :: ext)
  | _ => ""

/-- The per-channel line transformation applied to a file's body (after the
header was popped), `concat.py` lines 107-118: SST rollover/epoch mapping
when the compatibility version is below 3, SMD validation/sorting, or the
generic numeric filter for other `.csv` files. -/
def catTransform (suffix : String) (compat : Int) (f : SrcFile) (body : List String) :
    Except String (List String) := do
  let body ←
    if suffix = "SST" ∧ compat < 3 then process_sst_lines f.fltData body
    else pure body
  if suffix = "SMD" then
    pure (process_SMD_lines body)
  else if strLower (pathSuffix f.name) = ".csv" then
    pure (body.filter (fun line => floatable ((pySplit line ',').headD "")))
  else
    pure body

/-- Per-file processing of the non-SPC branch of `cat` (`concat.py` lines
95-126): an unreadable file is logged and contributes nothing, an empty
file is skipped, otherwise the header is popped, the body transformed, the
header re-inserted iff `index == 0`, and `"\r"` stripped from every line.
An uncaught exception (e.g. the SST rollover fit) is `Except.error`. -/
def cat_file (suffix : String) (compat : Int) (index : Nat) (f : SrcFile) :
    Except String (List String) :=
  match f.content with
  | none => .ok []
  | some lines =>
    if lines.isEmpty then .ok []
    else
      let header_line := lines.headD ""
      (catTransform suffix compat f lines.tail).map fun body =>
        ((if index = 0 then header_line :: body else body).map stripCR)

/-- The file loop of `cat` for a non-SPC suffix: files are processed in
order and their lines appended to the output.  An uncaught exception stops
the whole loop; the lines already written persist and the error is
returned. -/
def cat_files_go (suffix : String) (compat : Int) (index : Nat) (out : List String) :
    List SrcFile → List String × Option String
  | [] => (out, none)
  | f :: fs =>
    match cat_file suffix compat index f with
    | .ok ls => cat_files_go suffix compat (index + 1) (out ++ ls) fs
    | .error e => (out, some e)

/-- `cat` (non-SPC branch) over a list of discovered files: the written
output lines, and the uncaught exception if one was raised. -/
def cat_files (suffix : String) (compat : Int) (files : List SrcFile) :
    List String × Option String :=
  cat_files_go suffix compat 0 [] files

/-! ## `versions.py` -/

/-- The `supportedVersions` dict (insertion order preserved). -/
def supportedVersions : List (String × String) :=
  [("1446ABC", "1.2.5"), ("9BEADBE", "1.3.0"), ("2FDC90", "1.4.1"),
   ("928D2AE", "1.2.5"), ("3D3CFF5", "1.?.?"), ("A0F6980", "1.?.?"),
   ("340b03f", "1.4.2"), ("82755AE", "1.4.2"), ("B218FBD", "1.5.1"),
   ("E52AC4D", "1.5.2"), ("1323D38", "1.5.3"), ("73A3A4D0", "1.6.0"),
   ("6171C497", "1.6.2"), ("A98A2E52", "1.7.0"), ("A4FAAEBA", "1.7.1"),
   ("E7C7CD94", "1.8.0"), ("412432D3", "1.9.0"), ("9F438E3C", "1.9.1"),
   ("97A11B27", "1.10.0"), ("2992193B", "1.11.0"), ("2569BD17", "1.11.1"),
   ("81C1B398", "1.11.2"), ("93CE0B95", "1.12.0"), ("FE6412C3", "1.13.0")]

/-- The `ordinalVersionNumber` dict: identifier ↦ (ordinal, compatibility
number), in insertion order. -/
def ordinalVersionNumber : List (String × Nat × Nat) :=
  [("1446ABC", (0, 0)), ("9BEADBE", (1, 0)), ("2FDC90", (2, 1)),
   ("928D2AE", (0, 0)), ("340b03f", (3, 1)), ("82755AE", (3, 1)),
   ("B218FBD", (4, 2)), ("E52AC4D", (5, 2)), ("1323D38", (6, 2)),
   ("73A3A4D0", (7, 2)), ("6171C497", (8, 2)), ("A98A2E52", (9, 2)),
   ("A4FAAEBA", (10, 2)), ("E7C7CD94", (11, 2)), ("412432D3", (12, 2)),
   ("9F438E3C", (13, 2)), ("97A11B27", (14, 2)), ("2992193B", (15, 2)),
   ("2569BD17", (16, 2)), ("81C1B398", (17, 2)), ("93CE0B95", (18, 2)),
   ("FE6412C3", (19, 3))]

/-- Python dict lookup on an association list with unique keys. -/
def dictGet (d : List (String × α)) (k : String) : Option α :=
  (d.find? (fun kv => kv.1 = k)).map Prod.snd

/-- `defaultVersion` from `versions.py`. -/
def defaultVersion : Int := 0

/-- `defaultIIRWeightType` from `versions.py`. -/
def defaultIIRWeightType : Int := 0

/-- `latestVersion` from `getVersions`.  Mirrors the source faithfully:
`ordinal` stays `−1` (it is never reassigned in the loop), so each key with
a positive-or-zero compatibility number overwrites `latVer` and the result
is the last key of the dict.  The `""` seed models the unbound Python
variable; it is dead since the dict is non-empty. -/
def latestVersion : String :=
  let ordinal : Int := -1
  ordinalVersionNumber.foldl
    (fun latVer kv => if (kv.2.2 : Int) > ordinal then kv.1 else latVer) ""

/-- Result of scanning one SYS file's lines:
`(foundSha, sha, foundIIRWeightType, IIRWeightType)`. -/
structure SysScan where
  foundSha : Bool
  sha : String
  foundIIR : Bool
  iir : Int
  deriving DecidableEq, Repr

/-- The per-SYS-file scan loop of `getVersions` (`versions.py` lines
110-123): look for a `SHA` line and an `iir weight type` line in the first
81 lines, stopping early once both were found.  A `ValueError` from the
two-element unpack or from `int(...)` is `Except.error`. -/
def scanSysGo (st : SysScan) (jline : Nat) : List String → Except String SysScan
  | [] => .ok st
  | line :: rest => do
    let st' ←
      if containsStr line "SHA" then
        pure { st with foundSha := true, sha := pyTrim ((pySplit line ':').getLastD "") }
      else if containsStr line "iir weight type" then
        let parts := pySplit line ':'
        if parts.length = 2 then
          match pyInt? (pyTrim (parts.getD 1 "")) with
          | some v => pure { st with foundIIR := true, iir := v }
          | none => Except.error "invalid literal for int()"
        else Except.error "unpack"
      else pure st
    if (st'.foundSha ∧ st'.foundIIR) ∨ jline + 1 > 80 then .ok st'
    else scanSysGo st' (jline + 1) rest

/-- Scan one SYS file (initial state: nothing found, default IIR type). -/
def scanSysFile (lines : List String) : Except String SysScan :=
  scanSysGo ⟨false, "", false, defaultIIRWeightType⟩ 0 lines

/-- One entry of the version list built by `getVersions`. -/
structure VGroup where
  sha : List String
  version : List String
  ordinal : List (Nat × Nat)
  number : Nat
  IIRWeightType : Int
  fileNumbers : List String
  deriving DecidableEq, Repr

/-- The fresh dict appended by `getVersions` for a (valid) sha. -/
def mkGroup (sha : String) (iir : Int) : VGroup :=
  { sha := [sha]
    version := [(dictGet supportedVersions sha).getD ""]
    ordinal := [(dictGet ordinalVersionNumber sha).getD (0, 0)]
    number := ((dictGet ordinalVersionNumber sha).getD (0, 0)).2
    IIRWeightType := iir
    fileNumbers := [] }

/-- `version[-1] = f(version[-1])`: replace the last element (the empty
case is unreachable: the loop always creates a group at the first file). -/
def updateLast (l : List VGroup) (f : VGroup → VGroup) : List VGroup :=
  match l with
  | [] => []
  | [g] => [f g]
  | x :: rest => x :: updateLast rest f

/-- State of the `getVersions` file loop: the version list, the `first`
flag and the number of warnings printed so far. -/
structure VState where
  version : List VGroup
  first : Bool
  warnings : Nat
  deriving DecidableEq, Repr

/-- One iteration of the `getVersions` file loop (`versions.py` lines
105-194): scan the file, substitute `latestVersion` for an unregistered
sha, open or extend groups per the four cases, then append the filename's
sequence prefix to the last group. -/
def getVersionsStep (st : VState) (file : String × List String) : Except String VState := do
  let scan ← scanSysFile file.2
  let sha :=
    if scan.foundSha ∧ (dictGet ordinalVersionNumber scan.sha).isNone then latestVersion
    else scan.sha
  let st' :=
    if scan.foundSha ∧ st.first then
      { st with version := st.version ++ [mkGroup sha scan.iir], first := false }
    else if ¬ scan.foundSha ∧ st.first then
      { st with version := st.version ++ [mkGroup latestVersion scan.iir], first := false,
                warnings := st.warnings + 1 }
    else if scan.foundSha ∧ ¬ st.first then
      let last := st.version.getLastD (mkGroup "" 0)
      if ¬ (sha ∈ last.sha ∧ last.IIRWeightType = scan.iir) then
        if ((dictGet ordinalVersionNumber sha).getD (0, 0)).2 = last.number ∧
            last.IIRWeightType = scan.iir then
          { st with version := updateLast st.version (fun g =>
              { g with sha := g.sha ++ [sha],
                       ordinal := g.ordinal ++ [(dictGet ordinalVersionNumber sha).getD (0, 0)],
                       version := g.version ++ [(dictGet supportedVersions sha).getD ""] }) }
        else
          { st with version := st.version ++ [mkGroup sha scan.iir] }
      else st
    else st
  let parts := pySplit file.1 '_'
  if parts.length = 2 then
    return { st' with version := updateLast st'.version (fun g =>
      { g with fileNumbers := g.fileNumbers ++ [parts.headD ""] }) }
  else Except.error "unpack"

/-- `getVersions` from `versions.py` over the discovered SYS files (name,
lines): with no SYS files, the single implicit group for `latestVersion`
with the default IIR weight type and no file-number restriction; otherwise
the file loop.  Returns the version list and the warning count. -/
def getVersionsFiles (files : List (String × List String)) :
    Except String (List VGroup × Nat) :=
  if files.isEmpty then
    .ok ([mkGroup latestVersion defaultIIRWeightType], 0)
  else do
    let st ← files.foldlM getVersionsStep ⟨[], true, 0⟩
    return (st.version, st.warnings)

/-! ## `filenames.py` — `getFileNames` -/

/-- `\w` of the filename regex (ASCII word character). -/
def wordChar (c : Char) : Bool := c.isAlphanum ∨ c = '_'

/-- The filename signature regex `\d+_\w{3}\.\w{3}` of `filenames.py`,
anchored at the start (`re.match`). -/
def matchNameRe (s : String) : Bool :=
  let cs := s.data
  let ds := cs.takeWhile Char.isDigit
  match cs.drop ds.length with
  | '_' :: a :: b :: c :: '.' :: d :: e :: f :: _ =>
    ¬ ds.isEmpty ∧ wordChar a ∧ wordChar b ∧ wordChar c ∧ wordChar d ∧ wordChar e ∧ wordChar f
  | _ => false

/-- `path.glob(f"*_{suffix}.{ext}")` membership for a plain file name. -/
def globMatch (name suffix ext : String) : Bool :=
  List.isSuffixOf ("_" ++ suffix ++ "." ++ ext).data name.data

/-- Sort key `int(f.name.split("_")[0])` (files reaching it have a numeric
prefix in the inputs considered; a non-numeric prefix, where Python would
raise, is given key 0). -/
def fileNameKey (name : String) : Int :=
  (pyInt? ((pySplit name '_').headD "")).getD 0

/-- `getFileNames` from `filenames.py` over a directory listing: glob
`*_{suffix}.{ext}` for each allowed extension, sort by numeric prefix
(stably, as Python's `sorted`), keep names matching the signature regex,
and optionally restrict to the version file list.  Note: the `synonyms`
list built for `"LOC"` in the source is never used by the glob. -/
def getFileNames (dirListing : List String) (suffix : String)
    (versionFileList : Option (List String)) : List String :=
  let exts := ["CSV", "csv", "log"]
  let globbed := exts.flatMap (fun ext => dirListing.filter (fun n => globMatch n suffix ext))
  let sortedNames := stableSortBy (fun a b => fileNameKey a ≤ fileNameKey b) globbed
  let initial := sortedNames.filter matchNameRe
  match versionFileList with
  | some vfl => initial.filter (fun fn => vfl.contains (pyTrim ((pySplit fn '_').headD "")))
  | none => initial

/-! ## Spec-side definitions (for refinement comparison only) -/

/-- Modelled from the spec's words for the ensemble counter: "the integer
located between the 5th and the 6th comma delimiters" of the line, i.e.
the 6th comma-separated field. -/
def specEnsembleCounter (line : String) : Option Int :=
  match (pySplit line ',').drop 5 with
  | f :: _ => pyInt? f
  | [] => none

/-- Joining comma-free fields with commas; every line arises this way. -/
def commaJoin : List String → String
  | [] => ""
  | [f] => f
  | f :: g :: rest => f ++ "," ++ commaJoin (g :: rest)

end Spotter

deriving instance DecidableEq for Except

open Spotter

/-! ## Claim theorems -/

/-- C3: `getVersions` on a directory with no system-log files returns
exactly one implicit version group whose compatibility number equals the
highest compatibility class present in the firmware registry, with an
unrestricted (empty, "all") file-sequence-number set. -/
theorem C3_no_sys_files_implicit_group :
    getVersionsFiles [] = .ok ([mkGroup latestVersion defaultIIRWeightType], 0) ∧
    (mkGroup latestVersion defaultIIRWeightType).number =
      (ordinalVersionNumber.map (fun kv => kv.2.2)).foldl Nat.max 0 ∧
    (mkGroup latestVersion defaultIIRWeightType).fileNumbers = [] := by
  refine ⟨by decide, by decide, by decide⟩

/-- C7: with `previousAccumulatedValue = 0`, the millis sequence
`[4294967290, 5, 10]` crossing the 32-bit wrap boundary yields the
non-decreasing corrected accumulated values
`[4294967290, 4294967300, 4294967305]`; any delta more negative than
`−4294000000` is wrap-corrected by adding `2^32 − 1`.  The last conjunct
runs `process_sst_lines` itself (companion table fitting the identity map)
on those lines. -/
theorem C7_sst_rollover_nondecreasing (prev cur : Int)
    (h : cur - prev < -4294000000) :
    sst_step prev cur = prev + (cur - prev) + (2 ^ 32 - 1) ∧
    sst_values 0 [4294967290, 5, 10] = [4294967290, 4294967300, 4294967305] ∧
    List.Chain' (· ≤ ·) (sst_values 0 [4294967290, 5, 10]) ∧
    process_sst_lines
      [(0, 0), (1, 1), (2, 2), (3, 3), (4, 4), (5, 5), (6, 6), (7, 7), (8, 8),
       (9, 9), (10, 10), (20, 20)]
      ["4294967290,a\n", "5,b\n", "10,c\n"] =
    .ok ["4294967290 , a\n", "4294967300 , b\n", "4294967305 , c\n"] := by
  refine ⟨?_, by decide, ?_, by decide⟩
  · simp only [sst_step, if_pos h]
    ring
  · have hv : sst_values 0 [4294967290, 5, 10] = [4294967290, 4294967300, 4294967305] := by
      decide
    rw [hv]
    simp only [List.chain'_cons, List.chain'_singleton, and_true]
    omega

/-- Witness for C7 at the boundary-crossing input `prev = 4294967290`,
`cur = 5`. -/
theorem C7_sst_rollover_nondecreasing_witness :
    sst_step 4294967290 5 = 4294967290 + (5 - 4294967290) + (2 ^ 32 - 1) ∧
    sst_values 0 [4294967290, 5, 10] = [4294967290, 4294967300, 4294967305] ∧
    List.Chain' (· ≤ ·) (sst_values 0 [4294967290, 5, 10]) ∧
    process_sst_lines
      [(0, 0), (1, 1), (2, 2), (3, 3), (4, 4), (5, 5), (6, 6), (7, 7), (8, 8),
       (9, 9), (10, 10), (20, 20)]
      ["4294967290,a\n", "5,b\n", "10,c\n"] =
    .ok ["4294967290 , a\n", "4294967300 , b\n", "4294967305 , c\n"] :=
  C7_sst_rollover_nondecreasing 4294967290 5 (by decide)

/-- C8: on SMD lines with first-field timestamps `[0, "bad", 5.0, 2.0, 5.0]`
(each line with 5 comma-delimited fields, no RBRDT signature),
`process_SMD_lines` discards the zero and unparsable timestamps and returns
the survivors stably sorted: `[2.0, 5.0, 5.0]`, the two equal-timestamp
lines keeping their original relative order (distinguished here by their
payloads `aa..` before `p..`). -/
theorem C8_smd_filter_and_stable_sort :
    process_SMD_lines
      ["0,a,b,c,d\n", "bad,a,b,c,d\n", "5.0,aa,bb,cc,dd\n", "2.0,x,y,z,w\n",
       "5.0,p,q,r,s\n"] =
    ["2.0,x,y,z,w\n", "5.0,aa,bb,cc,dd\n", "5.0,p,q,r,s\n"] := by decide

/-- C9 (code bug): `getFileNames` with the location token `"LOC"` does NOT
return files tagged `"GPS"`: the `synonyms` list built in
`filenames.py` lines 26-28 is never used by the glob, so a directory
holding `0001_GPS.CSV` and `0002_LOC.CSV` yields only the LOC file. -/
theorem C9_loc_query_drops_gps_files :
    getFileNames ["0001_GPS.CSV", "0002_LOC.CSV"] "LOC" none = ["0002_LOC.CSV"] ∧
    "0001_GPS.CSV" ∉ getFileNames ["0001_GPS.CSV", "0002_LOC.CSV"] "LOC" none := by
  refine ⟨by decide, by decide⟩

/-- C1 counterexample: a FLT job whose first indexed file is empty (first
case) or unreadable (second case) and whose second file is processed
successfully retains NO header line at all — the second file's header
`"epoch,x\n"` is removed and nothing is re-inserted, contradicting "exactly
one header line, taken from the first successfully processed file". -/
theorem C1_counterexample_header_lost :
    cat_files "FLT" 0
      [⟨"0001_FLT.CSV", some [], []⟩,
       ⟨"0002_FLT.CSV", some ["epoch,x\n", "1,2\n"], []⟩] = (["1,2\n"], none) ∧
    "epoch,x\n" ∉ (cat_files "FLT" 0
      [⟨"0001_FLT.CSV", some [], []⟩,
       ⟨"0002_FLT.CSV", some ["epoch,x\n", "1,2\n"], []⟩]).1 ∧
    cat_files "FLT" 0
      [⟨"0001_FLT.CSV", none, []⟩,
       ⟨"0002_FLT.CSV", some ["epoch,x\n", "1,2\n"], []⟩] = (["1,2\n"], none) := by
  refine ⟨by decide, by decide, by decide⟩

/-- C2 counterexample: an SST job (compatibility class 2 < 3) whose first
file's companion FLT table has its millis maximum at index 0 (< 10) does
NOT continue with the remaining files: the `Roll-over in millis` exception
propagates, the loop stops, and the second file's line `"999 , 22\n"`
(which the last conjunct shows it would contribute on its own) never
reaches the output. -/
theorem C2_counterexample_rollover_aborts_run :
    cat_files "SST" 2
      [⟨"0001_SST.CSV", some ["millis,temp\n", "100,21\n"], [(5, 5), (4, 4)]⟩,
       ⟨"0002_SST.CSV", some ["millis,temp\n", "999,22\n"],
        [(0, 0), (1, 1), (2, 2), (3, 3), (4, 4), (5, 5), (6, 6), (7, 7), (8, 8),
         (9, 9), (10, 10), (20, 20)]⟩] = ([], some "Roll-over in millis") ∧
    cat_files "SST" 2
      [⟨"0002_SST.CSV", some ["millis,temp\n", "999,22\n"],
        [(0, 0), (1, 1), (2, 2), (3, 3), (4, 4), (5, 5), (6, 6), (7, 7), (8, 8),
         (9, 9), (10, 10), (20, 20)]⟩] = (["millis,temp\n", "999 , 22\n"], none) := by
  refine ⟨by decide, by decide⟩

/-- C5 counterexample: in debug mode with ensemble counters
`[5, 6, 7, CC, 6, 9]`, the `SPECA_CC` marker line is emitted immediately,
but the line carrying counter 7 is NOT emitted on the 7 → 6 transition:
the marker reset the tracked counter to 0, so 6 is not a decrease and the
buffered counter-7 line is silently discarded.  The output is exactly the
job header and the marker line. -/
theorem C5_counterexample_buffered_line_dropped :
    catSpcFile 0
      ["FFT debug header\n",
       "SPECA,1000,1,2,5,d1\n",
       "SPECA,1000,1,2,6,d2\n",
       "SPECA,1000,1,2,7,d3\n",
       "SPECA_CC,1000,1,2,55,d4\n",
       "SPECA,1000,1,2,6,d5\n",
       "SPECA,1000,1,2,9,d6\n"] =
      (["FFT debug header\n", "SPECA_CC,1000,1,2,55,d4\n"], false) ∧
    "SPECA,1000,1,2,7,d3\n" ∉ (catSpcFile 0
      ["FFT debug header\n",
       "SPECA,1000,1,2,5,d1\n",
       "SPECA,1000,1,2,6,d2\n",
       "SPECA,1000,1,2,7,d3\n",
       "SPECA_CC,1000,1,2,55,d4\n",
       "SPECA,1000,1,2,6,d5\n",
       "SPECA,1000,1,2,9,d6\n"]).1 := by
  refine ⟨by decide, by decide⟩

/-- C6 counterexample: on the qualifying record line
`"SPECA,1,2,3,42,7,9"` the code's ensemble counter is 42 — the integer
between the 4th and 5th comma delimiters — while the integer between the
5th and 6th comma delimiters is 7. -/
theorem C6_counterexample_wrong_field :
    strTake "SPECA,1,2,3,42,7,9" 5 = "SPECA" ∧
    spcEnsembleCounter "SPECA,1,2,3,42,7,9" = some 42 ∧
    specEnsembleCounter "SPECA,1,2,3,42,7,9" = some 7 ∧
    spcEnsembleCounter "SPECA,1,2,3,42,7,9" ≠
      specEnsembleCounter "SPECA,1,2,3,42,7,9" := by
  refine ⟨by decide, by decide, by decide, by decide⟩

/-- Replacing the last element of `l ++ [g]` touches only `g`. -/
theorem updateLast_concat (l : List VGroup) (g : VGroup) (f : VGroup → VGroup) :
    updateLast (l ++ [g]) f = l ++ [f g] := by
  induction l with
  | nil => rfl
  | cons x xs ih =>
    cases xs with
    | nil => rfl
    | cons y ys => exact congrArg (x :: ·) ih

/-- C1 (amended): in the non-SPC branch of `cat`, a header is retained only
from the file at index 0; the contribution of any later file is independent
of its header line (the header is removed, never re-inserted), and an
unreadable or empty file contributes nothing.  So when the first indexed
file is unreadable or empty, no header is retained at all. -/
theorem C1_amended_header_only_from_index_zero (suffix : String)
    (_hs : suffix ≠ "SPC") (compat : Int) (name : String)
    (flt : List (Int × Int)) (h h' : String) (t : List String)
    (i : Nat) (hi : i ≠ 0) :
    cat_file suffix compat i ⟨name, some (h :: t), flt⟩ =
      cat_file suffix compat i ⟨name, some (h' :: t), flt⟩ ∧
    (∀ out, cat_file suffix compat 0 ⟨name, some (h :: t), flt⟩ = .ok out →
      out.headD "" = stripCR h) ∧
    cat_file suffix compat i ⟨name, none, flt⟩ = .ok [] ∧
    cat_file suffix compat i ⟨name, some [], flt⟩ = .ok [] := by
  refine ⟨?_, ?_, rfl, rfl⟩
  · show ((catTransform suffix compat ⟨name, some (h :: t), flt⟩ t).map fun body =>
        (if i = 0 then h :: body else body).map stripCR) =
      ((catTransform suffix compat ⟨name, some (h' :: t), flt⟩ t).map fun body =>
        (if i = 0 then h' :: body else body).map stripCR)
    simp only [if_neg hi]
    rfl
  · intro out hout
    have : (catTransform suffix compat ⟨name, some (h :: t), flt⟩ t).map
        (fun body => (if (0 : Nat) = 0 then h :: body else body).map stripCR) = .ok out := hout
    cases hc : catTransform suffix compat ⟨name, some (h :: t), flt⟩ t with
    | error e => rw [hc] at this; exact absurd this (by simp [Except.map])
    | ok body =>
      rw [hc] at this
      simp only [Except.map, if_pos rfl] at this
      cases this
      rfl

/-- Witness for the amended C1 at a concrete FLT job. -/
theorem C1_amended_header_only_from_index_zero_witness :
    (cat_file "FLT" 0 1 ⟨"0002_FLT.CSV", some ("epoch,x\n" :: ["1,2\n"]), []⟩ =
      cat_file "FLT" 0 1 ⟨"0002_FLT.CSV", some ("other\n" :: ["1,2\n"]), []⟩) ∧
    (∀ out, cat_file "FLT" 0 0 ⟨"0002_FLT.CSV", some ("epoch,x\n" :: ["1,2\n"]), []⟩ =
        .ok out → out.headD "" = stripCR "epoch,x\n") ∧
    cat_file "FLT" 0 1 ⟨"0002_FLT.CSV", none, []⟩ = .ok [] ∧
    cat_file "FLT" 0 1 ⟨"0002_FLT.CSV", some [], []⟩ = .ok [] :=
  C1_amended_header_only_from_index_zero "FLT" (by decide) 0 "0002_FLT.CSV" []
    "epoch,x\n" "other\n" ["1,2\n"] 1 (by decide)

/-- An insufficient rollover-mapping span makes `process_sst_lines` raise
before producing anything. -/
theorem process_sst_lines_span_error (flt : List (Int × Int))
    (hspan : np_argmax (flt.map Prod.fst) < 10) (body : List String) :
    process_sst_lines flt body = .error "Roll-over in millis" := by
  simp only [process_sst_lines, get_epoch_to_milis_relation, if_pos hspan]
  rfl

/-- C2 (amended): the insufficient-span condition of the millis-to-epoch
fit is raised as an exception that `cat` does not catch: the failing SST
file's processing returns the error, the file loop stops there, and no
remaining file of the job contributes anything — the concatenation run is
aborted, not just the file's contribution. -/
theorem C2_amended_span_error_aborts_run (compat : Int) (hc : compat < 3)
    (name : String) (hd : String) (tl : List String)
    (flt : List (Int × Int)) (hspan : np_argmax (flt.map Prod.fst) < 10)
    (fs : List SrcFile) (i : Nat) :
    cat_file "SST" compat i ⟨name, some (hd :: tl), flt⟩ =
      .error "Roll-over in millis" ∧
    cat_files "SST" compat (⟨name, some (hd :: tl), flt⟩ :: fs) =
      ([], some "Roll-over in millis") := by
  have hfile : cat_file "SST" compat i ⟨name, some (hd :: tl), flt⟩ =
      .error "Roll-over in millis" := by
    show ((catTransform "SST" compat ⟨name, some (hd :: tl), flt⟩ tl).map fun body =>
        (if i = 0 then hd :: body else body).map stripCR) = .error "Roll-over in millis"
    have ht : catTransform "SST" compat ⟨name, some (hd :: tl), flt⟩ tl =
        .error "Roll-over in millis" := by
      simp only [catTransform, hc, process_sst_lines_span_error flt hspan, and_true,
        if_pos rfl, reduceIte]
      rfl
    rw [ht]
    rfl
  have hfile0 : cat_file "SST" compat 0 ⟨name, some (hd :: tl), flt⟩ =
      .error "Roll-over in millis" := by
    show ((catTransform "SST" compat ⟨name, some (hd :: tl), flt⟩ tl).map fun body =>
        (if (0 : Nat) = 0 then hd :: body else body).map stripCR) = .error "Roll-over in millis"
    have ht : catTransform "SST" compat ⟨name, some (hd :: tl), flt⟩ tl =
        .error "Roll-over in millis" := by
      simp only [catTransform, hc, process_sst_lines_span_error flt hspan, and_true,
        if_pos rfl, reduceIte]
      rfl
    rw [ht]
    rfl
  refine ⟨hfile, ?_⟩
  show (match cat_file "SST" compat 0 ⟨name, some (hd :: tl), flt⟩ with
    | .ok ls => cat_files_go "SST" compat 1 ([] ++ ls) fs
    | .error e => ([], some e)) = ([], some "Roll-over in millis")
  rw [hfile0]

/-- Witness for the amended C2 at a concrete two-file SST job. -/
theorem C2_amended_span_error_aborts_run_witness :
    cat_file "SST" 2 0 ⟨"0001_SST.CSV", some ("millis,temp\n" :: ["100,21\n"]), [(5, 5), (4, 4)]⟩ =
      .error "Roll-over in millis" ∧
    cat_files "SST" 2
      (⟨"0001_SST.CSV", some ("millis,temp\n" :: ["100,21\n"]), [(5, 5), (4, 4)]⟩ ::
        [⟨"0002_SST.CSV", some ["millis,temp\n", "999,22\n"],
          [(0, 0), (1, 1), (2, 2), (3, 3), (4, 4), (5, 5), (6, 6), (7, 7), (8, 8),
           (9, 9), (10, 10), (20, 20)]⟩]) = ([], some "Roll-over in millis") :=
  C2_amended_span_error_aborts_run 2 (by decide) "0001_SST.CSV" "millis,temp\n"
    ["100,21\n"] [(5, 5), (4, 4)] (by decide)
    [⟨"0002_SST.CSV", some ["millis,temp\n", "999,22\n"],
      [(0, 0), (1, 1), (2, 2), (3, 3), (4, 4), (5, 5), (6, 6), (7, 7), (8, 8),
       (9, 9), (10, 10), (20, 20)]⟩] 0

/-- C5 (amended): in debug mode a `SPECA_CC` marker line is emitted
immediately and resets the tracked counter to zero without touching the
buffered line; consequently, on counters `[5, 6, 7, CC, 6, 9]` the 6 after
the marker is compared against 0, not 7, no buffered line is emitted, and
the line carrying counter 7 is discarded — the emitted lines are exactly
the job header and the marker line. -/
theorem C5_amended_cc_resets_counter (st : SpcState) (line : String)
    (hcc : strTake line 8 = "SPECA_CC") (k : Int)
    (hp : spcEnsembleCounter line = some k) :
    spcStep "debug" st line = .ok ⟨0, st.prevLine, st.out ++ [line]⟩ ∧
    catSpcFile 0
      ["FFT debug header\n",
       "SPECA,1000,1,2,5,d1\n",
       "SPECA,1000,1,2,6,d2\n",
       "SPECA,1000,1,2,7,d3\n",
       "SPECA_CC,1000,1,2,55,d4\n",
       "SPECA,1000,1,2,6,d5\n",
       "SPECA,1000,1,2,9,d6\n"] =
      (["FFT debug header\n", "SPECA_CC,1000,1,2,55,d4\n"], false) := by
  refine ⟨?_, by decide⟩
  have hq : strTake line 8 = "SPEC_AVG" ∨ strTake line 5 = "SPECA" ∨
      strTake line 8 = "SPECA_CC" := Or.inr (Or.inr hcc)
  simp only [spcStep, if_pos hq, hp]
  rw [if_neg (by decide : ¬ ("debug" : String) = "production"), if_pos hcc]

/-- Witness for the amended C5 at a concrete marker line and state. -/
theorem C5_amended_cc_resets_counter_witness :
    spcStep "debug" ⟨7, "SPECA,1000,1,2,7,d3\n", ["x\n"]⟩ "SPECA_CC,1,2,3,4,y\n" =
      .ok ⟨0, "SPECA,1000,1,2,7,d3\n", ["x\n"] ++ ["SPECA_CC,1,2,3,4,y\n"]⟩ ∧
    catSpcFile 0
      ["FFT debug header\n",
       "SPECA,1000,1,2,5,d1\n",
       "SPECA,1000,1,2,6,d2\n",
       "SPECA,1000,1,2,7,d3\n",
       "SPECA_CC,1000,1,2,55,d4\n",
       "SPECA,1000,1,2,6,d5\n",
       "SPECA,1000,1,2,9,d6\n"] =
      (["FFT debug header\n", "SPECA_CC,1000,1,2,55,d4\n"], false) :=
  C5_amended_cc_resets_counter ⟨7, "SPECA,1000,1,2,7,d3\n", ["x\n"]⟩
    "SPECA_CC,1,2,3,4,y\n" (by decide) 4 (by decide)

/-- `Except.ok` bound into a continuation reduces to the continuation. -/
theorem exceptOkBind (v : α) (f : α → Except ε β) : (Except.ok v >>= f) = f v := rfl

/-- C10: for a system-log file after the first (the `first` flag is off and
the group list non-empty) in which the scan finds no firmware identifier,
`getVersions` opens no new group and prints no warning: the file's
sequence-number prefix is appended to the most recently created group —
whatever IIR weight type the file declares (`iir` is arbitrary and the
group's `IIRWeightType` is untouched). -/
theorem C10_no_sha_file_extends_last_group (groups : List VGroup) (g : VGroup)
    (warn : Nat) (name : String) (lines : List String) (sha0 : String)
    (b : Bool) (iir : Int)
    (hscan : scanSysFile lines = .ok ⟨false, sha0, b, iir⟩)
    (hname : (pySplit name '_').length = 2) :
    getVersionsStep ⟨groups ++ [g], false, warn⟩ (name, lines) =
      .ok ⟨groups ++
        [{ g with fileNumbers := g.fileNumbers ++ [(pySplit name '_').headD ""] }],
        false, warn⟩ := by
  simp [getVersionsStep, hscan, exceptOkBind, hname, updateLast_concat]

/-- Witness for C10: one existing group, then a SYS file with no SHA. -/
theorem C10_no_sha_file_extends_last_group_witness :
    getVersionsStep ⟨[] ++ [mkGroup "B218FBD" 1], false, 0⟩ ("0002_SYS.CSV", ["hello"]) =
      .ok ⟨[] ++ [{ mkGroup "B218FBD" 1 with
          fileNumbers := (mkGroup "B218FBD" 1).fileNumbers ++
            [(pySplit "0002_SYS.CSV" '_').headD ""] }], false, 0⟩ :=
  C10_no_sha_file_extends_last_group [] (mkGroup "B218FBD" 1) 0 "0002_SYS.CSV"
    ["hello"] "" false 0 (by decide) (by decide)

/-- C4: two system-log files, the first carrying a registered identifier of
compatibility class 2, the second an identifier absent from the registry.
The second resolves to `latestVersion` (class 3, the highest in the
registry); the two files merge into one group iff the resulting
(class, IIR weight type) pairs match — here they never do (2 ≠ 3), so two
groups are returned. -/
theorem C4_unregistered_sha_resolves_to_latest (n1 n2 : String)
    (f1 f2 : List String) (sha1 sha2 : String) (o1 : Nat) (b1 b2 : Bool)
    (w1 w2 : Int)
    (hs1 : scanSysFile f1 = .ok ⟨true, sha1, b1, w1⟩)
    (hreg : dictGet ordinalVersionNumber sha1 = some (o1, 2))
    (hs2 : scanSysFile f2 = .ok ⟨true, sha2, b2, w2⟩)
    (hunreg : dictGet ordinalVersionNumber sha2 = none)
    (hn1 : (pySplit n1 '_').length = 2) (hn2 : (pySplit n2 '_').length = 2) :
    ∃ g1 g2 : VGroup,
      getVersionsFiles [(n1, f1), (n2, f2)] = .ok ([g1, g2], 0) ∧
      g1.number = 2 ∧ g1.IIRWeightType = w1 ∧
      g2.sha = [latestVersion] ∧ g2.number = 3 ∧ g2.IIRWeightType = w2 ∧
      (3 : Nat) = (ordinalVersionNumber.map (fun kv => kv.2.2)).foldl Nat.max 0 ∧
      (([g1, g2] : List VGroup).length = 1 ↔
        (g1.number, g1.IIRWeightType) = (g2.number, g2.IIRWeightType)) := by
  have hlatest : dictGet ordinalVersionNumber latestVersion = some (19, 3) := by decide
  have hne : sha1 ≠ latestVersion := by
    intro he
    rw [he, hlatest] at hreg
    simp [Prod.ext_iff] at hreg
  refine ⟨{ mkGroup sha1 w1 with fileNumbers := [(pySplit n1 '_').headD ""] },
    { mkGroup latestVersion w2 with fileNumbers := [(pySplit n2 '_').headD ""] },
    ?_, ?_, ?_, ?_, ?_, ?_, by decide, ?_⟩
  · have h1 : getVersionsStep ⟨[], true, 0⟩ (n1, f1) =
        .ok ⟨[{ mkGroup sha1 w1 with fileNumbers := [(pySplit n1 '_').headD ""] }],
          false, 0⟩ := by
      simp [getVersionsStep, hs1, exceptOkBind, hreg, hn1, updateLast, mkGroup]
    have h2 : getVersionsStep
        ⟨[{ mkGroup sha1 w1 with fileNumbers := [(pySplit n1 '_').headD ""] }], false, 0⟩
        (n2, f2) =
        .ok ⟨[{ mkGroup sha1 w1 with fileNumbers := [(pySplit n1 '_').headD ""] },
          { mkGroup latestVersion w2 with fileNumbers := [(pySplit n2 '_').headD ""] }],
          false, 0⟩ := by
      have hmem : latestVersion ∉ ({ mkGroup sha1 w1 with
          fileNumbers := [(pySplit n1 '_').headD ""] } : VGroup).sha := by
        simp [mkGroup]
        exact fun he => hne he.symm
      have himp : latestVersion = sha1 → ¬w1 = w2 := fun he => absurd he.symm hne
      simp [getVersionsStep, hs2, exceptOkBind, hunreg, hn2, hlatest, hmem, mkGroup,
        updateLast, hreg, eq_true himp]
    show (do
      let st ← List.foldlM getVersionsStep (⟨[], true, 0⟩ : VState) [(n1, f1), (n2, f2)]
      return (st.version, st.warnings) : Except String (List VGroup × Nat)) = _
    rw [List.foldlM_cons, h1, exceptOkBind, List.foldlM_cons, h2, exceptOkBind,
      List.foldlM_nil]
    rfl
  · simp [mkGroup, hreg]
  · simp [mkGroup]
  · simp [mkGroup]
  · simp [mkGroup, hlatest]
  · simp [mkGroup]
  · refine iff_of_false (by simp) ?_
    intro hp
    have h1 : ({ mkGroup sha1 w1 with
        fileNumbers := [(pySplit n1 '_').headD ""] } : VGroup).number = 2 := by
      simp [mkGroup, hreg]
    have h2 : ({ mkGroup latestVersion w2 with
        fileNumbers := [(pySplit n2 '_').headD ""] } : VGroup).number = 3 := by
      simp [mkGroup, hlatest]
    rw [Prod.ext_iff] at hp
    rw [h1, h2] at hp
    simp at hp

/-- Witness for C4: `B218FBD` (class 2) then the unregistered `XYZ`. -/
theorem C4_unregistered_sha_resolves_to_latest_witness :
    ∃ g1 g2 : VGroup,
      getVersionsFiles
        [("0001_SYS.CSV", ["SHA:B218FBD", "iir weight type: 1"]),
         ("0002_SYS.CSV", ["SHA:XYZ"])] = .ok ([g1, g2], 0) ∧
      g1.number = 2 ∧ g1.IIRWeightType = 1 ∧
      g2.sha = [latestVersion] ∧ g2.number = 3 ∧ g2.IIRWeightType = 0 ∧
      (3 : Nat) = (ordinalVersionNumber.map (fun kv => kv.2.2)).foldl Nat.max 0 ∧
      (([g1, g2] : List VGroup).length = 1 ↔
        (g1.number, g1.IIRWeightType) = (g2.number, g2.IIRWeightType)) :=
  C4_unregistered_sha_resolves_to_latest "0001_SYS.CSV" "0002_SYS.CSV"
    ["SHA:B218FBD", "iir weight type: 1"] ["SHA:XYZ"] "B218FBD" "XYZ" 4 true false
    1 0 (by decide) (by decide) (by decide) (by decide) (by decide) (by decide)

/-- A comma-free block followed by a comma: `pyFindAux` finds the comma. -/
theorem pyFindAux_comma (p q : List Char) (hp : ',' ∉ p) (i : Nat) :
    pyFindAux [','] (p ++ ',' :: q) i = some (i + p.length) := by
  induction p generalizing i with
  | nil => simp [pyFindAux, List.isPrefixOf]
  | cons x xs ih =>
    have hx : (',' == x) = false := by
      rw [beq_eq_false_iff_ne]
      intro h
      exact hp (by simp [← h])
    have hp' : ',' ∉ xs := fun hm => hp (List.mem_cons_of_mem _ hm)
    simp only [List.cons_append, pyFindAux, List.isPrefixOf, hx, Bool.false_and,
      Bool.false_eq_true, if_false, List.length_cons]
    rw [show xs.append (',' :: q) = xs ++ ',' :: q from rfl, ih hp']
    simp only [Option.some.injEq]
    omega

/-- `pyFind` on a suffix that decomposes as comma-free block, comma, rest. -/
theorem pyFind_decomp (s : String) (start : Nat) (p q : List Char)
    (hd : s.data.drop start = p ++ ',' :: q) (hp : ',' ∉ p) :
    pyFind s "," start = ((start + p.length : Nat) : Int) := by
  unfold pyFind
  rw [show ("," : String).data = [','] from rfl, hd, pyFindAux_comma p q hp 0]
  show ((start + (0 + p.length) : Nat) : Int) = ((start + p.length : Nat) : Int)
  norm_num

/-- Dropping past a comma-free block and its comma. -/
theorem drop_after_comma (p q : List Char) :
    (p ++ ',' :: q).drop (p.length + 1) = q := by
  rw [show p ++ ',' :: q = (p ++ [',']) ++ q by simp,
    show p.length + 1 = (p ++ [',']).length by simp, List.drop_left]

/-- Chaining comma-block drops along a list. -/
theorem drop_chain (l : List Char) (m : Nat) (p q : List Char)
    (h : l.drop m = p ++ ',' :: q) :
    l.drop (m + p.length + 1) = q := by
  have hstep : l.drop (m + p.length + 1) = (l.drop m).drop (p.length + 1) := by
    rw [List.drop_drop]
    congr 1
  rw [hstep, h, drop_after_comma]

/-- `String.mk` of a string's own characters. -/
theorem strMk_data (s : String) : String.mk s.data = s := rfl

/-- `pySlice` at in-range natural bounds extracts the block of that length. -/
theorem pySlice_take (s : String) (i : Nat) (p q : List Char)
    (hd : s.data.drop i = p ++ q) (hn : i + p.length ≤ s.data.length) :
    pySlice s (i : Int) ((i + p.length : Nat) : Int) = String.mk p := by
  simp only [pySlice]
  have h1 : (if (i : Int) < 0 then
      max 0 ((i : Int) + (s.data.length : Int)) else min (i : Int) (s.data.length : Int)).toNat
      = i := by
    rw [if_neg (by omega)]
    omega
  have h2 : (if ((i + p.length : Nat) : Int) < 0 then
      max 0 (((i + p.length : Nat) : Int) + (s.data.length : Int))
      else min (((i + p.length : Nat) : Int)) (s.data.length : Int)).toNat
      = i + p.length := by
    rw [if_neg (by omega)]
    omega
  rw [h1, h2, hd, show i + p.length - i = p.length by omega, List.take_left]

/-- C6 (amended): for every line with at least six comma-separated fields
(the first five comma-free), the ensemble counter the code reads is the
integer between the 4th and the 5th comma delimiters — the 5th field —
since `find_nth(line, ",", 5)` returns the positions of the 5th and 4th
occurrences and the code slices between them. -/
theorem C6_amended_counter_between_4th_and_5th_comma
    (f0 f1 f2 f3 f4 f5 : String) (rest : List String)
    (h0 : ',' ∉ f0.data) (h1 : ',' ∉ f1.data) (h2 : ',' ∉ f2.data)
    (h3 : ',' ∉ f3.data) (h4 : ',' ∉ f4.data) :
    spcEnsembleCounter (commaJoin (f0 :: f1 :: f2 :: f3 :: f4 :: f5 :: rest)) =
      pyInt? f4 := by
  set L := commaJoin (f0 :: f1 :: f2 :: f3 :: f4 :: f5 :: rest) with hLdef
  set T5 := (commaJoin (f5 :: rest)).data with hT5
  have hdata : L.data =
      f0.data ++ ',' :: (f1.data ++ ',' :: (f2.data ++ ',' ::
        (f3.data ++ ',' :: (f4.data ++ ',' :: T5)))) := by
    rw [hLdef]
    simp [commaJoin, String.data_append, hT5]
  have hd0 : L.data.drop 0 = f0.data ++ ',' ::
      (f1.data ++ ',' :: (f2.data ++ ',' :: (f3.data ++ ',' ::
        (f4.data ++ ',' :: T5)))) := by
    rw [List.drop_zero, hdata]
  have hd1 : L.data.drop (0 + f0.data.length + 1) =
      f1.data ++ ',' :: (f2.data ++ ',' :: (f3.data ++ ',' ::
        (f4.data ++ ',' :: T5))) := drop_chain _ _ _ _ hd0
  have hd2 : L.data.drop (0 + f0.data.length + 1 + f1.data.length + 1) =
      f2.data ++ ',' :: (f3.data ++ ',' :: (f4.data ++ ',' :: T5)) := by
    have := drop_chain _ _ _ _ hd1
    simpa using this
  have hd3 : L.data.drop
      (0 + f0.data.length + 1 + f1.data.length + 1 + f2.data.length + 1) =
      f3.data ++ ',' :: (f4.data ++ ',' :: T5) := by
    have := drop_chain _ _ _ _ hd2
    simpa using this
  have hd4 : L.data.drop
      (0 + f0.data.length + 1 + f1.data.length + 1 + f2.data.length + 1 +
        f3.data.length + 1) =
      f4.data ++ ',' :: T5 := by
    have := drop_chain _ _ _ _ hd3
    simpa using this
  have hf1 : pyFind L "," 0 = ((0 + f0.data.length : Nat) : Int) :=
    pyFind_decomp L 0 _ _ hd0 h0
  have hf2 : pyFind L "," (0 + f0.data.length + 1) =
      ((0 + f0.data.length + 1 + f1.data.length : Nat) : Int) :=
    pyFind_decomp L _ _ _ hd1 h1
  have hf3 : pyFind L "," (0 + f0.data.length + 1 + f1.data.length + 1) =
      ((0 + f0.data.length + 1 + f1.data.length + 1 + f2.data.length : Nat) : Int) :=
    pyFind_decomp L _ _ _ hd2 h2
  have hf4 : pyFind L ","
      (0 + f0.data.length + 1 + f1.data.length + 1 + f2.data.length + 1) =
      ((0 + f0.data.length + 1 + f1.data.length + 1 + f2.data.length + 1 +
        f3.data.length : Nat) : Int) :=
    pyFind_decomp L _ _ _ hd3 h3
  have hf5 : pyFind L ","
      (0 + f0.data.length + 1 + f1.data.length + 1 + f2.data.length + 1 +
        f3.data.length + 1) =
      ((0 + f0.data.length + 1 + f1.data.length + 1 + f2.data.length + 1 +
        f3.data.length + 1 + f4.data.length : Nat) : Int) :=
    pyFind_decomp L _ _ _ hd4 h4
  have hfind : find_nth L "," 5 =
      (((0 + f0.data.length + 1 + f1.data.length + 1 + f2.data.length + 1 +
          f3.data.length + 1 + f4.data.length : Nat) : Int),
       ((0 + f0.data.length + 1 + f1.data.length + 1 + f2.data.length + 1 +
          f3.data.length : Nat) : Int)) := by
    unfold find_nth
    rw [hf1]
    simp only [findNthGo, Int.natCast_nonneg, ite_true, if_true, Int.toNat_natCast,
      show String.length "," = 1 from rfl, hf2, hf3, hf4, hf5]
  have hlen : 0 + f0.data.length + 1 + f1.data.length + 1 + f2.data.length + 1 +
      f3.data.length + 1 + f4.data.length ≤ L.data.length := by
    have hl := congrArg List.length hdata
    simp only [List.length_append, List.length_cons] at hl
    omega
  have hslice : pySlice L
      ((0 + f0.data.length + 1 + f1.data.length + 1 + f2.data.length + 1 +
        f3.data.length + 1 : Nat) : Int)
      ((0 + f0.data.length + 1 + f1.data.length + 1 + f2.data.length + 1 +
        f3.data.length + 1 + f4.data.length : Nat) : Int) = String.mk f4.data :=
    pySlice_take L _ f4.data (',' :: T5) hd4 hlen
  show pyInt? (pySlice L ((find_nth L "," 5).2 + 1) (find_nth L "," 5).1) = pyInt? f4
  rw [hfind]
  have hcast : (((0 + f0.data.length + 1 + f1.data.length + 1 + f2.data.length + 1 +
      f3.data.length : Nat) : Int) + 1) =
      ((0 + f0.data.length + 1 + f1.data.length + 1 + f2.data.length + 1 +
        f3.data.length + 1 : Nat) : Int) := by
    push_cast
    ring
  rw [show ((((0 + f0.data.length + 1 + f1.data.length + 1 + f2.data.length + 1 +
      f3.data.length + 1 + f4.data.length : Nat) : Int)),
      (((0 + f0.data.length + 1 + f1.data.length + 1 + f2.data.length + 1 +
        f3.data.length : Nat) : Int))).2 =
      (((0 + f0.data.length + 1 + f1.data.length + 1 + f2.data.length + 1 +
        f3.data.length : Nat) : Int)) from rfl,
    hcast]
  rw [show ((((0 + f0.data.length + 1 + f1.data.length + 1 + f2.data.length + 1 +
      f3.data.length + 1 + f4.data.length : Nat) : Int)),
      (((0 + f0.data.length + 1 + f1.data.length + 1 + f2.data.length + 1 +
        f3.data.length : Nat) : Int))).1 =
      (((0 + f0.data.length + 1 + f1.data.length + 1 + f2.data.length + 1 +
        f3.data.length + 1 + f4.data.length : Nat) : Int)) from rfl]
  rw [hslice, strMk_data]

/-- Witness for the amended C6 on the fields of `"SPECA,1,2,3,42,7,9"`. -/
theorem C6_amended_counter_between_4th_and_5th_comma_witness :
    spcEnsembleCounter (commaJoin ["SPECA", "1", "2", "3", "42", "7", "9"]) =
      pyInt? "42" :=
  C6_amended_counter_between_4th_and_5th_comma "SPECA" "1" "2" "3" "42" "7" ["9"]
    (by decide) (by decide) (by decide) (by decide) (by decide)
